import Mathlib

/-
A shallow embedding of the trap-forwarding and register-state transformation
engine of the ACE-RISCV security monitor (the HardwareHart core from
security-monitor/src/core/control_data/hardware_hart.rs and the
SharePageRequest type from
security-monitor/src/core/transformations/share_page_request.rs), together
with theorems about its behaviour.

Machine words are modelled as Nat. The mutable machine context (the saved
non-confidential hart state plus the control and status registers written by
this code) is modelled as an explicit state record; every method that
mutates the context in Rust becomes a state-passing function. A Rust panic
is modelled as Except.error carrying the state at the moment of the abort.
-/

namespace ACE

/-- Modelled from the spec: bit-set helper of the register abstraction
(enable_bit in core/architecture, not part of the provided sources); sets
one bit of a register value. -/
def enable_bit (v bit : Nat) : Nat := v ||| (1 <<< bit)

/-- Modelled from the spec: bit-clear helper of the register abstraction
(disable_bit in core/architecture); clears one bit of a register value. -/
def disable_bit (v bit : Nat) : Nat := Nat.ldiff v (1 <<< bit)

/-- Modelled from the spec: bit-test helper of the register abstraction
(are_bits_enabled in core/architecture); tests whether all bits of the mask
are set in the register value. -/
def are_bits_enabled (v bits : Nat) : Bool := (v &&& bits) = bits

/-- Modelled from the spec: bit position of the previous-virtualization-mode
bit (MPV) in the machine status register, per the privileged architecture. -/
def CSR_MSTATUS_MPV : Nat := 39

/-- Modelled from the spec: bit position encoding previous privilege =
supervisor (MPP) in the machine status register. -/
def CSR_MSTATUS_MPP : Nat := 11

/-- Modelled from the spec: bit position of the previous machine
interrupt-enable bit (MPIE) in the machine status register. -/
def CSR_MSTATUS_MPIE : Nat := 7

/-- Modelled from the spec: bit position of the supervisor interrupt-enable
bit (SIE) in the machine status register. -/
def CSR_MSTATUS_SIE : Nat := 1

/-- Modelled from the spec: bit position of the previous virtual-supervisor
privilege bit (SPP) in the machine status register. -/
def CSR_MSTATUS_SPP : Nat := 8

/-- Modelled from the spec: bit position of the guest-virtual-address-valid
bit (GVA) in the hypervisor status register. -/
def CSR_HSTATUS_GVA : Nat := 6

/-- Modelled from the spec: bit position of the supervisor-previous-virtualization
bit (SPV) in the hypervisor status register. -/
def CSR_HSTATUS_SPV : Nat := 7

/-- Modelled from the spec: bit position of the supervisor-previous-virtual-privilege
bit (SPVP) in the hypervisor status register. -/
def CSR_HSTATUS_SPVP : Nat := 8

/-- Modelled from the spec: bit position of the previous-privilege bit (SPP)
in the supervisor status register. -/
def CSR_SSTATUS_SPP : Nat := 8

/-- Modelled from the spec: mask selecting the vectored mode of the
supervisor trap-vector register (low mode bit set means vectored). -/
def STVEC_MODE_VECTORED : Nat := 1

/-- Modelled from the spec: the interrupt bit of the supervisor cause
register (topmost bit of a 64-bit machine word). -/
def SCAUSE_INTERRUPT_MASK : Nat := 1 <<< 63

/-- Modelled from the spec: trap-cause code for an environment call from
virtual-supervisor mode. -/
def CAUSE_VIRTUAL_SUPERVISOR_ECALL : Nat := 10

/-- Modelled from the spec: trap-cause code for an environment call from
hypervisor (HS) mode. -/
def CAUSE_SUPERVISOR_ECALL : Nat := 9

/-- Modelled from the spec: the SBI extension identifier of the
confidential-computing (ACE) extension used for security monitor calls. -/
def ACE_EXT_ID : Nat := 0x509999

/-- Modelled from the spec: the general purpose registers of the
architecture (GeneralPurposeRegister in core/architecture). -/
inductive GeneralPurposeRegister where
  | zero | ra | sp | gp | tp
  | t0 | t1 | t2
  | s0 | s1
  | a0 | a1 | a2 | a3 | a4 | a5 | a6 | a7
  | s2 | s3 | s4 | s5 | s6 | s7 | s8 | s9 | s10 | s11
  | t3 | t4 | t5 | t6
  deriving DecidableEq

/-- Modelled from the spec: the saved register file of one execution context
(HartArchitecturalState in core/architecture); only the fields this core
reads or writes are modelled. -/
structure HartArchitecturalState where
  gprs : GeneralPurposeRegister → Nat
  mepc : Nat
  mstatus : Nat
  hgatp : Nat
  id : Nat

/-- Modelled from the spec: reads one general purpose register of the saved
state (HartArchitecturalState::gpr). -/
def HartArchitecturalState.gpr (s : HartArchitecturalState) (r : GeneralPurposeRegister) : Nat :=
  s.gprs r

/-- Modelled from the spec: writes one general purpose register of the saved
state (HartArchitecturalState::set_gpr). -/
def HartArchitecturalState.set_gpr (s : HartArchitecturalState) (r : GeneralPurposeRegister) (v : Nat) : HartArchitecturalState :=
  { s with gprs := fun r2 => if r2 = r then v else s.gprs r2 }

/-- Modelled from the spec: the control and status registers read or written
by the HardwareHart engine (the CSR accessor surface of core/architecture). -/
structure CSRFile where
  mscratch : Nat
  mcause : Nat
  scause : Nat
  stval : Nat
  htval : Nat
  vsscratch : Nat
  sepc : Nat
  stvec : Nat
  hstatus : Nat
  sstatus : Nat
  vsie : Nat
  vstval : Nat
  vsepc : Nat
  vstvec : Nat

/-- The per-core HardwareHart record; of its fields, this embedding models
the saved non-confidential hart state and the saved scratch value of the
co-resident firmware (previous_mscratch). -/
structure HardwareHart where
  non_confidential_hart_state : HartArchitecturalState
  previous_mscratch : Nat

/-- The complete mutable context of the engine: the HardwareHart in main
memory plus the physical CSR file. -/
structure MachineState where
  hart : HardwareHart
  csr : CSRFile

/-- Helper mirroring self.non_confidential_hart_state.set_gpr(r, v). -/
def MachineState.set_gpr (s : MachineState) (r : GeneralPurposeRegister) (v : Nat) : MachineState :=
  { s with hart := { s.hart with
      non_confidential_hart_state := s.hart.non_confidential_hart_state.set_gpr r v } }

/-- HardwareHart::swap_mscratch: exchanges the machine scratch CSR with the
saved previous_mscratch field. -/
def swap_mscratch (s : MachineState) : MachineState :=
  let current_mscratch := s.csr.mscratch
  { s with
    csr := { s.csr with mscratch := s.hart.previous_mscratch },
    hart := { s.hart with previous_mscratch := current_mscratch } }

/-- Modelled from the spec: an outbound SBI call request
(core/transformations, only field accessors appear in the provided
sources). -/
structure SbiRequest where
  extension_id : Nat
  function_id : Nat
  a0 : Nat
  a1 : Nat
  a2 : Nat
  a3 : Nat
  a4 : Nat
  a5 : Nat

/-- Modelled from the spec: an outbound SBI call request originating from a
confidential-VM-aware wrapper (core/transformations). -/
structure SbiVmRequest where
  sbi_request : SbiRequest

/-- Modelled from the spec: a returned SBI result carrying the two
return-value registers and a program-counter offset (core/transformations). -/
structure SbiResult where
  a0 : Nat
  a1 : Nat
  pc_offset : Nat

/-- Modelled from the spec: the trap-register block of a firmware-call
result (the trap_regs field read by apply_opensbi_result). -/
structure TrapRegs where
  mstatus : Nat
  mepc : Nat
  a0 : Nat
  a1 : Nat

/-- Modelled from the spec: a returned result from a privileged firmware
call (core/transformations). -/
structure OpensbiResult where
  trap_regs : TrapRegs

/-- Modelled from the spec: an emulated memory-mapped I/O load fault
(core/transformations). -/
structure MmioLoadRequest where
  code : Nat
  stval : Nat
  htval : Nat
  instruction : Nat

/-- Modelled from the spec: an emulated memory-mapped I/O store fault,
additionally carrying the faulting register and its value
(core/transformations). -/
structure MmioStoreRequest where
  code : Nat
  stval : Nat
  htval : Nat
  instruction : Nat
  gpr : GeneralPurposeRegister
  gpr_value : Nat

/-- Modelled from the spec: an emulated interrupt delivery
(core/transformations). -/
structure InterruptRequest where
  code : Nat

/-- Modelled from the spec: an update of the interrupts the hypervisor has
enabled for injection (core/transformations). -/
structure EnabledInterrupts where
  vsie : Nat

/-- The closed transformation taxonomy ExposeToHypervisor: every kind of
information that crosses the boundary towards the hypervisor. -/
inductive ExposeToHypervisor where
  | SbiRequest (v : SbiRequest)
  | SbiVmRequest (v : SbiVmRequest)
  | SbiResult (v : SbiResult)
  | OpensbiResult (v : OpensbiResult)
  | MmioLoadRequest (v : MmioLoadRequest)
  | MmioStoreRequest (v : MmioStoreRequest)
  | InterruptRequest (v : InterruptRequest)
  | EnabledInterrupts (v : EnabledInterrupts)

/-- HardwareHart::apply_trap: the trap-emulation transition. The panic on a
vectored trap-vector mode is modelled as Except.error carrying the state at
the abort point; otherwise the status-register bits are rewritten, the
resume address is saved to sepc and replaced by the trap-vector address, and
the guest-virtual-address-valid bit is set or cleared. -/
def apply_trap (s : MachineState) (encoded_guest_virtual_address : Bool) : Except MachineState MachineState :=
  if are_bits_enabled s.csr.stvec STVEC_MODE_VECTORED then
    Except.error s
  else
    let hs := s.hart.non_confidential_hart_state
    let m1 := disable_bit hs.mstatus CSR_MSTATUS_MPV
    let m2 := enable_bit m1 CSR_MSTATUS_MPP
    let m3 := disable_bit m2 CSR_MSTATUS_MPIE
    let m4 := disable_bit m3 CSR_MSTATUS_SIE
    let sepc1 := hs.mepc
    let mepc1 := s.csr.stvec
    let m5 := enable_bit m4 CSR_MSTATUS_SPP
    let hstatus1 := enable_bit (enable_bit s.csr.hstatus CSR_HSTATUS_SPV) CSR_HSTATUS_SPVP
    let sstatus1 := enable_bit s.csr.sstatus CSR_SSTATUS_SPP
    let hstatus2 :=
      if encoded_guest_virtual_address then enable_bit hstatus1 CSR_HSTATUS_GVA
      else disable_bit hstatus1 CSR_HSTATUS_GVA
    Except.ok
      { s with
        hart := { s.hart with
          non_confidential_hart_state := { hs with mstatus := m5, mepc := mepc1 } },
        csr := { s.csr with sepc := sepc1, hstatus := hstatus2, sstatus := sstatus1 } }

/-- HardwareHart::apply_enabled_interrupts: writes the guest interrupt
enable CSR only. -/
def apply_enabled_interrupts (s : MachineState) (result : EnabledInterrupts) : MachineState :=
  { s with csr := { s.csr with vsie := result.vsie } }

/-- HardwareHart::apply_sbi_result: writes the two return-value registers
and advances the saved program counter by the specified offset. -/
def apply_sbi_result (s : MachineState) (result : SbiResult) : MachineState :=
  let s1 := (s.set_gpr .a0 result.a0).set_gpr .a1 result.a1
  { s1 with hart := { s1.hart with
      non_confidential_hart_state := { s1.hart.non_confidential_hart_state with
        mepc := s1.hart.non_confidential_hart_state.mepc + result.pc_offset } } }

/-- HardwareHart::apply_opensbi_result: overwrites the saved machine status,
the saved program counter and the two return-value registers with the values
of the firmware trap-register block. -/
def apply_opensbi_result (s : MachineState) (result : OpensbiResult) : MachineState :=
  let s1 := { s with hart := { s.hart with
      non_confidential_hart_state := { s.hart.non_confidential_hart_state with
        mstatus := result.trap_regs.mstatus, mepc := result.trap_regs.mepc } } }
  (s1.set_gpr .a0 result.trap_regs.a0).set_gpr .a1 result.trap_regs.a1

/-- HardwareHart::apply_sbi_vm_request: writes the cause register and the
full call-argument register convention, then performs trap emulation. -/
def apply_sbi_vm_request (s : MachineState) (request : SbiVmRequest) : Except MachineState MachineState :=
  let s1 := { s with csr := { s.csr with scause := CAUSE_VIRTUAL_SUPERVISOR_ECALL } }
  let s2 := s1.set_gpr .a7 request.sbi_request.extension_id
  let s3 := s2.set_gpr .a6 request.sbi_request.function_id
  let s4 := s3.set_gpr .a0 request.sbi_request.a0
  let s5 := s4.set_gpr .a1 request.sbi_request.a1
  let s6 := s5.set_gpr .a2 request.sbi_request.a2
  let s7 := s6.set_gpr .a3 request.sbi_request.a3
  let s8 := s7.set_gpr .a4 request.sbi_request.a4
  let s9 := s8.set_gpr .a5 request.sbi_request.a5
  apply_trap s9 false

/-- HardwareHart::apply_sbi_request: writes the cause register and the full
call-argument register convention, then performs trap emulation. -/
def apply_sbi_request (s : MachineState) (request : SbiRequest) : Except MachineState MachineState :=
  let s1 := { s with csr := { s.csr with scause := CAUSE_VIRTUAL_SUPERVISOR_ECALL } }
  let s2 := s1.set_gpr .a7 request.extension_id
  let s3 := s2.set_gpr .a6 request.function_id
  let s4 := s3.set_gpr .a0 request.a0
  let s5 := s4.set_gpr .a1 request.a1
  let s6 := s5.set_gpr .a2 request.a2
  let s7 := s6.set_gpr .a3 request.a3
  let s8 := s7.set_gpr .a4 request.a4
  let s9 := s8.set_gpr .a5 request.a5
  apply_trap s9 false

/-- HardwareHart::apply_mmio_load_request: writes cause, the two fault
address representations and the smuggled faulting instruction, then performs
trap emulation. -/
def apply_mmio_load_request (s : MachineState) (request : MmioLoadRequest) : Except MachineState MachineState :=
  let s1 := { s with csr := { s.csr with
      scause := request.code, stval := request.stval, htval := request.htval,
      vsscratch := request.instruction } }
  apply_trap s1 true

/-- HardwareHart::apply_mmio_store_request: writes cause, the two fault
address representations, the faulting register value and the smuggled
faulting instruction, then performs trap emulation. -/
def apply_mmio_store_request (s : MachineState) (request : MmioStoreRequest) : Except MachineState MachineState :=
  let s1 := { s with csr := { s.csr with
      scause := request.code, stval := request.stval, htval := request.htval } }
  let s2 := s1.set_gpr request.gpr request.gpr_value
  let s3 := { s2 with csr := { s2.csr with vsscratch := request.instruction } }
  apply_trap s3 true

/-- HardwareHart::apply_interrupt_request: writes the cause register with
the interrupt bit set, then performs trap emulation. -/
def apply_interrupt_request (s : MachineState) (request : InterruptRequest) : Except MachineState MachineState :=
  let s1 := { s with csr := { s.csr with scause := request.code ||| SCAUSE_INTERRUPT_MASK } }
  apply_trap s1 false

/-- HardwareHart::apply: dispatches on the transformation variant. -/
def apply (s : MachineState) (transformation : ExposeToHypervisor) : Except MachineState MachineState :=
  match transformation with
  | .SbiRequest v => apply_sbi_request s v
  | .SbiVmRequest v => apply_sbi_vm_request s v
  | .SbiResult v => Except.ok (apply_sbi_result s v)
  | .OpensbiResult v => Except.ok (apply_opensbi_result s v)
  | .MmioLoadRequest v => apply_mmio_load_request s v
  | .MmioStoreRequest v => apply_mmio_store_request s v
  | .InterruptRequest v => apply_interrupt_request s v
  | .EnabledInterrupts v => Except.ok (apply_enabled_interrupts s v)

/-- Applies a list of transformations in order, stopping at an abort. -/
def applyAll (s : MachineState) (ts : List ExposeToHypervisor) : Except MachineState MachineState :=
  ts.foldlM apply s

/-- The transformation variants that invoke trap emulation (call-forwarding
transformations). -/
def ExposeToHypervisor.forwards_trap : ExposeToHypervisor → Bool
  | .SbiRequest _ => true
  | .SbiVmRequest _ => true
  | .MmioLoadRequest _ => true
  | .MmioStoreRequest _ => true
  | .InterruptRequest _ => true
  | _ => false

/-- The transformation variants that carry a guest virtual address (MMIO
load and store faults). -/
def ExposeToHypervisor.is_mmio_fault : ExposeToHypervisor → Bool
  | .MmioLoadRequest _ => true
  | .MmioStoreRequest _ => true
  | _ => false

/-- Modelled from the spec: the SBI extension classification
(SbiExtension in core/architecture). The confidential-computing (Ace)
extension is the one variant this core inspects; every other extension is
kept abstract together with its function identifier. -/
inductive SbiExtension where
  | Ace (function_id : Nat)
  | Unknown (extension_id : Nat) (function_id : Nat)
  deriving DecidableEq

/-- Modelled from the spec: decodes an extension identifier and a function
identifier into the SBI extension classification. -/
def SbiExtension.decode (extension_id function_id : Nat) : SbiExtension :=
  if extension_id = ACE_EXT_ID then .Ace function_id
  else .Unknown extension_id function_id

/-- Modelled from the spec: the closed set of trap categories produced by
the trap-cause classifier (TrapCause in core/architecture). -/
inductive TrapCause where
  | Interrupt (code : Nat)
  | HsEcall (extension : SbiExtension)
  | VsEcall (extension : SbiExtension)
  | Unknown (code : Nat)
  deriving DecidableEq

/-- Modelled from the spec: the trap-cause classifier (TrapCause::from in
core/architecture): decodes a raw cause code plus the call-extension and
call-function identifiers into a trap category. -/
def TrapCause.ofCause (cause extension_id function_id : Nat) : TrapCause :=
  if cause.testBit 63 then .Interrupt (Nat.ldiff cause SCAUSE_INTERRUPT_MASK)
  else if cause = CAUSE_SUPERVISOR_ECALL then .HsEcall (SbiExtension.decode extension_id function_id)
  else if cause = CAUSE_VIRTUAL_SUPERVISOR_ECALL then .VsEcall (SbiExtension.decode extension_id function_id)
  else .Unknown cause

/-- HardwareHart::restore_original_gprs: restores the two registers that
conventionally carry the call-extension and call-function identifiers from
the smuggled virtual-supervisor CSR channel. -/
def restore_original_gprs (s : MachineState) : MachineState :=
  (s.set_gpr .a7 s.csr.vstval).set_gpr .a6 s.csr.vsepc

/-- HardwareHart::trap_reason: reads the machine cause register and the two
identifier registers, classifies the trap, and for a hypervisor-mode call of
the confidential-computing extension restores the original registers from
the smuggled CSR channel. Returns the classification together with the
(possibly mutated) state. -/
def trap_reason (s : MachineState) : TrapCause × MachineState :=
  match TrapCause.ofCause s.csr.mcause
      (s.hart.non_confidential_hart_state.gpr .a7)
      (s.hart.non_confidential_hart_state.gpr .a6) with
  | .HsEcall (.Ace f) => (.HsEcall (.Ace f), restore_original_gprs s)
  | tr => (tr, s)

/-- Modelled from the spec: the resume request value object identifying a
confidential VM and one of its virtual harts (ResumeRequest in
core/transformations). -/
structure ResumeRequest where
  confidential_vm_id : Nat
  confidential_hart_id : Nat
  deriving DecidableEq

/-- Modelled from the spec: the terminate request value object identifying a
confidential VM (TerminateRequest in core/transformations). -/
structure TerminateRequest where
  confidential_vm_id : Nat
  deriving DecidableEq

/-- HardwareHart::read_security_monitor_call_arguments: reads the
confidential VM identifier and the virtual hart identifier from the two
smuggled virtual-supervisor CSRs. -/
def read_security_monitor_call_arguments (s : MachineState) : Nat × Nat :=
  (s.csr.vstvec, s.csr.vsscratch)

/-- HardwareHart::resume_request: builds a resume request from the smuggled
CSR argument channel. -/
def resume_request (s : MachineState) : ResumeRequest :=
  let args := read_security_monitor_call_arguments s
  { confidential_vm_id := args.1, confidential_hart_id := args.2 }

/-- HardwareHart::terminate_request: builds a terminate request from the
smuggled CSR argument channel. -/
def terminate_request (s : MachineState) : TerminateRequest :=
  let args := read_security_monitor_call_arguments s
  { confidential_vm_id := args.1 }

/-- Modelled from the spec: a guest physical address of a confidential VM
(ConfidentialVmPhysicalAddress in core/memory_layout; its constructor wraps
the raw address, as witnessed by its use without an error path in
share_page_request.rs). -/
structure ConfidentialVmPhysicalAddress where
  address : Nat
  deriving DecidableEq

/-- Modelled from the spec: constructor of ConfidentialVmPhysicalAddress. -/
def ConfidentialVmPhysicalAddress.new (address : Nat) : ConfidentialVmPhysicalAddress :=
  { address := address }

/-- Modelled from the spec: the page sizes of the memory subsystem
(PageSize in core/memory_protector). -/
inductive PageSize where
  | Size4KiB
  | Size2MiB
  | Size1GiB
  deriving DecidableEq

/-- Modelled from the spec: the typed failure returned at
request-construction boundaries (Error in the error module); its payload is
kept abstract as a numeric code. -/
inductive Error where
  | mk (code : Nat)
  deriving DecidableEq

/-- SharePageRequest: a request to share a page at a guest address. -/
structure SharePageRequest where
  confidential_vm_virtual_address : ConfidentialVmPhysicalAddress
  page_size : PageSize
  deriving DecidableEq

/-- SharePageRequest::new: wraps the input address and fixes the page size
to 4 KiB; the result is returned through the typed failure channel. -/
def SharePageRequest.new (address : Nat) : Except Error SharePageRequest :=
  let confidential_vm_virtual_address := ConfidentialVmPhysicalAddress.new address
  Except.ok
    { confidential_vm_virtual_address := confidential_vm_virtual_address,
      page_size := PageSize.Size4KiB }

/-- SharePageRequest::page_size accessor. -/
def SharePageRequest.page_size_of (r : SharePageRequest) : PageSize :=
  r.page_size

/-- Extracts the success state of a transformation application, substituting
a default for the abort case; used to evaluate the theorems on concrete
inputs. -/
def okOr (d : MachineState) : Except MachineState MachineState → MachineState
  | Except.ok x => x
  | Except.error _ => d

/-- Reads the supervisor cause register of the state at an abort, if the
computation aborted. -/
def abort_scause : Except MachineState MachineState → Option Nat
  | Except.error e => some e.csr.scause
  | Except.ok _ => none

/-- Tests whether a fallible computation ended in the failure case. -/
def isErrB {ε α : Type} : Except ε α → Bool
  | Except.error _ => true
  | Except.ok _ => false

/-- Tests whether a fallible computation ended in the success case. -/
def isOkB {ε α : Type} : Except ε α → Bool
  | Except.error _ => false
  | Except.ok _ => true

/-- A concrete register file holding zero in every register. -/
def zeroGprs : GeneralPurposeRegister → Nat := fun _ => 0

/-- A concrete saved hart state with all fields zero. -/
def hartState0 : HartArchitecturalState :=
  { gprs := zeroGprs, mepc := 0, mstatus := 0, hgatp := 0, id := 0 }

/-- A concrete CSR file with every register zero. -/
def csr0 : CSRFile :=
  { mscratch := 0, mcause := 0, scause := 0, stval := 0, htval := 0,
    vsscratch := 0, sepc := 0, stvec := 0, hstatus := 0, sstatus := 0,
    vsie := 0, vstval := 0, vsepc := 0, vstvec := 0 }

/-- A concrete machine state: everything zero, direct (non-vectored) trap
vector. -/
def state0 : MachineState :=
  { hart := { non_confidential_hart_state := hartState0, previous_mscratch := 0 }, csr := csr0 }

/-- A concrete machine state whose supervisor trap vector is in vectored
mode. -/
def vectoredState : MachineState :=
  { state0 with csr := { csr0 with stvec := 1 } }

/-- A concrete machine state whose smuggled CSR channel holds the pair of
identifiers (7, 2). -/
def state72 : MachineState :=
  { state0 with csr := { csr0 with vstvec := 7, vsscratch := 2 } }

/-- A concrete register file carrying the confidential-computing extension
identifier in the a7 register. -/
def aceGprs : GeneralPurposeRegister → Nat :=
  fun r => if r = GeneralPurposeRegister.a7 then ACE_EXT_ID else 0

/-- A concrete hart state whose a7 register holds the confidential-computing
extension identifier. -/
def aceHartState : HartArchitecturalState :=
  { hartState0 with gprs := aceGprs }

/-- A concrete machine state describing a hypervisor-mode environment call
of the confidential-computing extension. -/
def aceCallState : MachineState :=
  { hart := { non_confidential_hart_state := aceHartState, previous_mscratch := 0 },
    csr := { csr0 with mcause := CAUSE_SUPERVISOR_ECALL, vstval := ACE_EXT_ID, vsepc := 1234 } }

/-- A concrete MMIO store request. -/
def storeRequest0 : MmioStoreRequest :=
  { code := 5, stval := 3, htval := 4, instruction := 2,
    gpr := GeneralPurposeRegister.t0, gpr_value := 9 }

/-- A concrete MMIO load request. -/
def loadRequest0 : MmioLoadRequest :=
  { code := 21, stval := 3, htval := 4, instruction := 2 }

/-- A concrete SBI result. -/
def sbiResult0 : SbiResult := { a0 := 1, a1 := 2, pc_offset := 4 }

/-- A concrete firmware-call result whose trap-register block differs from
the initial state in the status register and jumps the program counter. -/
def opensbiResult0 : OpensbiResult :=
  { trap_regs := { mstatus := 77, mepc := 100, a0 := 1, a1 := 2 } }

/-- The state after applying a concrete interrupt request to state0. -/
def interruptApplied : MachineState :=
  okOr state0 (apply state0 (ExposeToHypervisor.InterruptRequest { code := 0 }))

/-- The state after trap emulation on state0 with no guest virtual
address. -/
def trapApplied : MachineState :=
  okOr state0 (apply_trap state0 false)

/-- The state after a concrete two-transformation sequence ending in an
MMIO load fault. -/
def gvaSeqApplied : MachineState :=
  okOr state0 (applyAll state0
    [ExposeToHypervisor.EnabledInterrupts { vsie := 0 },
     ExposeToHypervisor.MmioLoadRequest loadRequest0])

/-- A single bit shifted into position b has exactly bit b set. -/
theorem testBit_one_shiftLeft (b k : Nat) : (1 <<< b).testBit k = decide (b = k) := by
  rw [Nat.shiftLeft_eq, one_mul]
  rcases eq_or_ne b k with h | h
  · simp [h, Nat.testBit_two_pow_self]
  · simp [h, Nat.testBit_two_pow_of_ne h]

/-- Bit semantics of the enable_bit helper. -/
theorem testBit_enable_bit (v b k : Nat) :
    (enable_bit v b).testBit k = (v.testBit k || decide (b = k)) := by
  simp only [enable_bit, Nat.testBit_lor, testBit_one_shiftLeft]

/-- Bit semantics of the disable_bit helper. -/
theorem testBit_disable_bit (v b k : Nat) :
    (disable_bit v b).testBit k = (v.testBit k && !decide (b = k)) := by
  simp only [disable_bit, Nat.testBit_ldiff, testBit_one_shiftLeft]

/-- Full characterization of a successful trap emulation: the trap vector
was not vectored, the status register went through the five bit writes, the
resume address moved to sepc and was replaced by the trap vector, and the
hypervisor status received its three bit writes with the
guest-virtual-address flag deciding the GVA bit. -/
theorem apply_trap_ok_elim (s : MachineState) (b : Bool) (s1 : MachineState)
    (h : apply_trap s b = Except.ok s1) :
    are_bits_enabled s.csr.stvec STVEC_MODE_VECTORED = false ∧
    s1.hart.non_confidential_hart_state.mstatus =
      enable_bit (disable_bit (disable_bit (enable_bit (disable_bit
        s.hart.non_confidential_hart_state.mstatus CSR_MSTATUS_MPV) CSR_MSTATUS_MPP)
        CSR_MSTATUS_MPIE) CSR_MSTATUS_SIE) CSR_MSTATUS_SPP ∧
    s1.csr.sepc = s.hart.non_confidential_hart_state.mepc ∧
    s1.hart.non_confidential_hart_state.mepc = s.csr.stvec ∧
    s1.csr.hstatus =
      (if b then
        enable_bit (enable_bit (enable_bit s.csr.hstatus CSR_HSTATUS_SPV) CSR_HSTATUS_SPVP)
          CSR_HSTATUS_GVA
      else
        disable_bit (enable_bit (enable_bit s.csr.hstatus CSR_HSTATUS_SPV) CSR_HSTATUS_SPVP)
          CSR_HSTATUS_GVA) := by
  by_cases hv : are_bits_enabled s.csr.stvec STVEC_MODE_VECTORED = true
  · unfold apply_trap at h
    rw [if_pos hv] at h
    exact absurd h (by simp)
  · unfold apply_trap at h
    rw [if_neg hv] at h
    simp only [Except.ok.injEq] at h
    subst h
    refine ⟨by simpa using hv, rfl, rfl, rfl, ?_⟩
    cases b <;> rfl

/-- The five status-register bit writes of trap emulation yield the
mode-transition pattern for every initial status value. -/
theorem forwarded_mstatus_bits (m : Nat) :
    (enable_bit (disable_bit (disable_bit (enable_bit (disable_bit m CSR_MSTATUS_MPV)
        CSR_MSTATUS_MPP) CSR_MSTATUS_MPIE) CSR_MSTATUS_SIE) CSR_MSTATUS_SPP).testBit
        CSR_MSTATUS_MPV = false ∧
    (enable_bit (disable_bit (disable_bit (enable_bit (disable_bit m CSR_MSTATUS_MPV)
        CSR_MSTATUS_MPP) CSR_MSTATUS_MPIE) CSR_MSTATUS_SIE) CSR_MSTATUS_SPP).testBit
        CSR_MSTATUS_MPP = true ∧
    (enable_bit (disable_bit (disable_bit (enable_bit (disable_bit m CSR_MSTATUS_MPV)
        CSR_MSTATUS_MPP) CSR_MSTATUS_MPIE) CSR_MSTATUS_SIE) CSR_MSTATUS_SPP).testBit
        CSR_MSTATUS_MPIE = false ∧
    (enable_bit (disable_bit (disable_bit (enable_bit (disable_bit m CSR_MSTATUS_MPV)
        CSR_MSTATUS_MPP) CSR_MSTATUS_MPIE) CSR_MSTATUS_SIE) CSR_MSTATUS_SPP).testBit
        CSR_MSTATUS_SIE = false ∧
    (enable_bit (disable_bit (disable_bit (enable_bit (disable_bit m CSR_MSTATUS_MPV)
        CSR_MSTATUS_MPP) CSR_MSTATUS_MPIE) CSR_MSTATUS_SIE) CSR_MSTATUS_SPP).testBit
        CSR_MSTATUS_SPP = true := by
  refine ⟨?_, ?_, ?_, ?_, ?_⟩ <;>
    simp [testBit_enable_bit, testBit_disable_bit, CSR_MSTATUS_MPV, CSR_MSTATUS_MPP,
      CSR_MSTATUS_MPIE, CSR_MSTATUS_SIE, CSR_MSTATUS_SPP]

/-- The GVA bit of the hypervisor status register after trap emulation
equals the guest-virtual-address flag. -/
theorem forwarded_hstatus_gva (hst : Nat) (b : Bool) :
    (if b then
      enable_bit (enable_bit (enable_bit hst CSR_HSTATUS_SPV) CSR_HSTATUS_SPVP) CSR_HSTATUS_GVA
    else
      disable_bit (enable_bit (enable_bit hst CSR_HSTATUS_SPV) CSR_HSTATUS_SPVP)
        CSR_HSTATUS_GVA).testBit CSR_HSTATUS_GVA = b := by
  cases b <;>
    simp [testBit_enable_bit, testBit_disable_bit, CSR_HSTATUS_SPV, CSR_HSTATUS_SPVP,
      CSR_HSTATUS_GVA]

/-- Every call-forwarding transformation is a sequence of register writes
that leave the trap vector untouched, followed by trap emulation with the
guest-virtual-address flag of its variant. -/
theorem apply_forwarding_decomp (s : MachineState) (t : ExposeToHypervisor)
    (hf : t.forwards_trap = true) :
    ∃ s0 : MachineState, apply s t = apply_trap s0 t.is_mmio_fault ∧
      s0.csr.stvec = s.csr.stvec := by
  cases t with
  | SbiRequest v => exact ⟨_, rfl, rfl⟩
  | SbiVmRequest v => exact ⟨_, rfl, rfl⟩
  | MmioLoadRequest v => exact ⟨_, rfl, rfl⟩
  | MmioStoreRequest v => exact ⟨_, rfl, rfl⟩
  | InterruptRequest v => exact ⟨_, rfl, rfl⟩
  | SbiResult v => exact absurd hf (by simp [ExposeToHypervisor.forwards_trap])
  | OpensbiResult v => exact absurd hf (by simp [ExposeToHypervisor.forwards_trap])
  | EnabledInterrupts v => exact absurd hf (by simp [ExposeToHypervisor.forwards_trap])

/-- After a successful call-forwarding transformation, the GVA bit of the
hypervisor status register equals the MMIO-fault discriminator of the
variant. -/
theorem apply_forwarding_gva (s : MachineState) (t : ExposeToHypervisor) (s1 : MachineState)
    (hf : t.forwards_trap = true) (h : apply s t = Except.ok s1) :
    s1.csr.hstatus.testBit CSR_HSTATUS_GVA = t.is_mmio_fault := by
  obtain ⟨s0, heq, -⟩ := apply_forwarding_decomp s t hf
  rw [heq] at h
  obtain ⟨-, -, -, -, hh⟩ := apply_trap_ok_elim s0 _ s1 h
  rw [hh]
  exact forwarded_hstatus_gva _ _

/-- A successful application of a non-empty transformation sequence factors
through a successful application of its last element. -/
theorem applyAll_append_last (s s1 : MachineState) (ts : List ExposeToHypervisor)
    (t : ExposeToHypervisor) (h : applyAll s (ts ++ [t]) = Except.ok s1) :
    ∃ s2, apply s2 t = Except.ok s1 := by
  induction ts generalizing s with
  | nil =>
    refine ⟨s, ?_⟩
    simpa [applyAll, List.foldlM, bind_pure] using h
  | cons a as ih =>
    rw [applyAll, List.cons_append, List.foldlM_cons] at h
    cases ha : apply s a with
    | error e =>
      rw [ha] at h
      simp [Bind.bind, Except.bind] at h
    | ok s2 =>
      rw [ha] at h
      simp only [Bind.bind, Except.bind] at h
      exact ih s2 (by simpa [applyAll] using h)

/-- Restoring the original registers copies the first smuggled CSR into
register a7. -/
theorem restore_original_gprs_a7 (s : MachineState) :
    (restore_original_gprs s).hart.non_confidential_hart_state.gpr
      GeneralPurposeRegister.a7 = s.csr.vstval := by
  simp [restore_original_gprs, MachineState.set_gpr, HartArchitecturalState.set_gpr,
    HartArchitecturalState.gpr]

/-- Restoring the original registers copies the second smuggled CSR into
register a6. -/
theorem restore_original_gprs_a6 (s : MachineState) :
    (restore_original_gprs s).hart.non_confidential_hart_state.gpr
      GeneralPurposeRegister.a6 = s.csr.vsepc := by
  simp [restore_original_gprs, MachineState.set_gpr, HartArchitecturalState.set_gpr,
    HartArchitecturalState.gpr]

/-- Restoring the original registers leaves every CSR unchanged. -/
theorem restore_original_gprs_csr (s : MachineState) :
    (restore_original_gprs s).csr = s.csr := rfl

/-- When the classifier reports a hypervisor-mode call of the
confidential-computing extension, trap_reason returns that classification
together with the state after restoring the original registers. -/
theorem trap_reason_ace (s : MachineState) (f : Nat)
    (h : TrapCause.ofCause s.csr.mcause
        (s.hart.non_confidential_hart_state.gpr GeneralPurposeRegister.a7)
        (s.hart.non_confidential_hart_state.gpr GeneralPurposeRegister.a6) =
      TrapCause.HsEcall (SbiExtension.Ace f)) :
    trap_reason s = (TrapCause.HsEcall (SbiExtension.Ace f), restore_original_gprs s) := by
  unfold trap_reason
  rw [h]

/-- C1: For every initial value of the saved machine status register, after
applying any call-forwarding transformation (SbiRequest, SbiVmRequest,
MmioLoadRequest, MmioStoreRequest, or InterruptRequest) via apply, the
resulting saved status register has the MPV bit cleared, the MPP bit set
(previous privilege = supervisor), the MPIE and SIE bits cleared and the
SPP bit set. -/
theorem c1_forwarded_status_bits (s : MachineState) (t : ExposeToHypervisor) (s1 : MachineState)
    (hf : t.forwards_trap = true) (h : apply s t = Except.ok s1) :
    s1.hart.non_confidential_hart_state.mstatus.testBit CSR_MSTATUS_MPV = false ∧
    s1.hart.non_confidential_hart_state.mstatus.testBit CSR_MSTATUS_MPP = true ∧
    s1.hart.non_confidential_hart_state.mstatus.testBit CSR_MSTATUS_MPIE = false ∧
    s1.hart.non_confidential_hart_state.mstatus.testBit CSR_MSTATUS_SIE = false ∧
    s1.hart.non_confidential_hart_state.mstatus.testBit CSR_MSTATUS_SPP = true := by
  obtain ⟨s0, heq, -⟩ := apply_forwarding_decomp s t hf
  rw [heq] at h
  obtain ⟨-, hm, -, -, -⟩ := apply_trap_ok_elim s0 _ s1 h
  rw [hm]
  exact forwarded_mstatus_bits _

/-- Witness for C1 at a concrete interrupt request on the all-zero state. -/
theorem c1_forwarded_status_bits_witness :
    (ExposeToHypervisor.InterruptRequest { code := 0 }).forwards_trap = true ∧
    (interruptApplied.hart.non_confidential_hart_state.mstatus.testBit CSR_MSTATUS_MPV = false ∧
     interruptApplied.hart.non_confidential_hart_state.mstatus.testBit CSR_MSTATUS_MPP = true ∧
     interruptApplied.hart.non_confidential_hart_state.mstatus.testBit CSR_MSTATUS_MPIE = false ∧
     interruptApplied.hart.non_confidential_hart_state.mstatus.testBit CSR_MSTATUS_SIE = false ∧
     interruptApplied.hart.non_confidential_hart_state.mstatus.testBit CSR_MSTATUS_SPP = true) :=
  ⟨rfl, c1_forwarded_status_bits state0 (ExposeToHypervisor.InterruptRequest { code := 0 })
    interruptApplied rfl rfl⟩

/-- C2 (amended): invoking trap emulation with the trap vector in vectored
mode always aborts, and apply_trap itself performs no register or CSR
mutation before the abort; however, writes performed by the enclosing
transformation before it invokes apply_trap (such as the cause, trap-value
and register writes of an MMIO store) have already taken effect at the
abort point. -/
theorem c2_vectored_trap_emulation_aborts :
    (∀ (s : MachineState) (b : Bool),
      are_bits_enabled s.csr.stvec STVEC_MODE_VECTORED = true →
      apply_trap s b = Except.error s) ∧
    (∀ (s : MachineState) (t : ExposeToHypervisor),
      t.forwards_trap = true →
      are_bits_enabled s.csr.stvec STVEC_MODE_VECTORED = true →
      isErrB (apply s t) = true) := by
  constructor
  · intro s b hv
    unfold apply_trap
    rw [if_pos hv]
  · intro s t hf hv
    obtain ⟨s0, heq, hstvec⟩ := apply_forwarding_decomp s t hf
    rw [heq]
    unfold apply_trap
    rw [hstvec, if_pos hv]
    rfl

/-- Witness for C2 (amended) at a concrete vectored state. -/
theorem c2_vectored_trap_emulation_aborts_witness :
    are_bits_enabled vectoredState.csr.stvec STVEC_MODE_VECTORED = true ∧
    apply_trap vectoredState true = Except.error vectoredState ∧
    isErrB (apply vectoredState (ExposeToHypervisor.MmioStoreRequest storeRequest0)) = true :=
  ⟨rfl, c2_vectored_trap_emulation_aborts.1 vectoredState true rfl,
    c2_vectored_trap_emulation_aborts.2 vectoredState
      (ExposeToHypervisor.MmioStoreRequest storeRequest0) rfl rfl⟩

/-- C2 counterexample: with the trap vector in vectored mode, applying an
MMIO store transformation aborts, but at the abort point the supervisor
cause register already holds the value written by the transformation (5),
while it was 0 before, so mutation by the transformation is observable at
the abort. -/
theorem c2_counterexample_mutation_at_abort :
    abort_scause (apply vectoredState (ExposeToHypervisor.MmioStoreRequest storeRequest0)) =
      some 5 ∧
    vectoredState.csr.scause = 0 := ⟨rfl, rfl⟩

/-- C3: For every pre-trap state, successful trap emulation saves the
current saved resume address (mepc) into the supervisor exception program
counter (sepc) and overwrites the saved resume address with the trap-vector
CSR value. -/
theorem c3_trap_delivery_swaps_pc (s : MachineState) (b : Bool) (s1 : MachineState)
    (h : apply_trap s b = Except.ok s1) :
    s1.csr.sepc = s.hart.non_confidential_hart_state.mepc ∧
    s1.hart.non_confidential_hart_state.mepc = s.csr.stvec := by
  obtain ⟨-, -, h1, h2, -⟩ := apply_trap_ok_elim s b s1 h
  exact ⟨h1, h2⟩

/-- Witness for C3 at the all-zero state. -/
theorem c3_trap_delivery_swaps_pc_witness :
    trapApplied.csr.sepc = state0.hart.non_confidential_hart_state.mepc ∧
    trapApplied.hart.non_confidential_hart_state.mepc = state0.csr.stvec :=
  c3_trap_delivery_swaps_pc state0 false trapApplied rfl

/-- C4 (amended): applying an SbiResult writes exactly the two return-value
registers a0 and a1 and advances the saved program counter by the pc
offset, leaving all other state unchanged; applying an OpensbiResult
instead overwrites the saved machine status register and the saved program
counter with the absolute values of the firmware trap-register block, in
addition to writing a0 and a1, leaving all other state unchanged. -/
theorem c4_result_transformations (s : MachineState) (r1 : SbiResult) (r2 : OpensbiResult) :
    apply s (ExposeToHypervisor.SbiResult r1) = Except.ok (apply_sbi_result s r1) ∧
    apply s (ExposeToHypervisor.OpensbiResult r2) = Except.ok (apply_opensbi_result s r2) ∧
    (apply_sbi_result s r1).hart.non_confidential_hart_state.gprs =
      (fun g => if g = GeneralPurposeRegister.a1 then r1.a1
                else if g = GeneralPurposeRegister.a0 then r1.a0
                else s.hart.non_confidential_hart_state.gprs g) ∧
    (apply_sbi_result s r1).hart.non_confidential_hart_state.mepc =
      s.hart.non_confidential_hart_state.mepc + r1.pc_offset ∧
    (apply_sbi_result s r1).hart.non_confidential_hart_state.mstatus =
      s.hart.non_confidential_hart_state.mstatus ∧
    (apply_sbi_result s r1).hart.non_confidential_hart_state.hgatp =
      s.hart.non_confidential_hart_state.hgatp ∧
    (apply_sbi_result s r1).hart.non_confidential_hart_state.id =
      s.hart.non_confidential_hart_state.id ∧
    (apply_sbi_result s r1).hart.previous_mscratch = s.hart.previous_mscratch ∧
    (apply_sbi_result s r1).csr = s.csr ∧
    (apply_opensbi_result s r2).hart.non_confidential_hart_state.gprs =
      (fun g => if g = GeneralPurposeRegister.a1 then r2.trap_regs.a1
                else if g = GeneralPurposeRegister.a0 then r2.trap_regs.a0
                else s.hart.non_confidential_hart_state.gprs g) ∧
    (apply_opensbi_result s r2).hart.non_confidential_hart_state.mepc = r2.trap_regs.mepc ∧
    (apply_opensbi_result s r2).hart.non_confidential_hart_state.mstatus = r2.trap_regs.mstatus ∧
    (apply_opensbi_result s r2).hart.non_confidential_hart_state.hgatp =
      s.hart.non_confidential_hart_state.hgatp ∧
    (apply_opensbi_result s r2).hart.non_confidential_hart_state.id =
      s.hart.non_confidential_hart_state.id ∧
    (apply_opensbi_result s r2).hart.previous_mscratch = s.hart.previous_mscratch ∧
    (apply_opensbi_result s r2).csr = s.csr :=
  ⟨rfl, rfl, rfl, rfl, rfl, rfl, rfl, rfl, rfl, rfl, rfl, rfl, rfl, rfl, rfl, rfl⟩

/-- C4 counterexample: a concrete firmware-call result changes the saved
status register (0 to 77) and sets the saved program counter to an absolute
value (100), which is neither an advance by 0 nor by an instruction width,
refuting that only a0, a1 and a pc offset are written. -/
theorem c4_counterexample_opensbi_overwrites :
    apply state0 (ExposeToHypervisor.OpensbiResult opensbiResult0) =
      Except.ok (apply_opensbi_result state0 opensbiResult0) ∧
    (apply_opensbi_result state0 opensbiResult0).hart.non_confidential_hart_state.mstatus = 77 ∧
    state0.hart.non_confidential_hart_state.mstatus = 0 ∧
    (apply_opensbi_result state0 opensbiResult0).hart.non_confidential_hart_state.mepc = 100 ∧
    state0.hart.non_confidential_hart_state.mepc = 0 :=
  ⟨rfl, rfl, rfl, rfl, rfl⟩

/-- C5: After any successful sequence of transformations ending with a
call-forwarding transformation, the GVA bit of the hypervisor status CSR is
set if and only if that last transformation was an MMIO load or store
fault; the bit tracks only the latest forwarded transformation. -/
theorem c5_gva_tracks_latest_forwarding (s s1 : MachineState)
    (ts : List ExposeToHypervisor) (t : ExposeToHypervisor)
    (hf : t.forwards_trap = true)
    (h : applyAll s (ts ++ [t]) = Except.ok s1) :
    s1.csr.hstatus.testBit CSR_HSTATUS_GVA = t.is_mmio_fault := by
  obtain ⟨s2, h2⟩ := applyAll_append_last s s1 ts t h
  exact apply_forwarding_gva s2 t s1 hf h2

/-- Witness for C5: a concrete sequence ending with an MMIO load fault. -/
theorem c5_gva_tracks_latest_forwarding_witness :
    (ExposeToHypervisor.MmioLoadRequest loadRequest0).forwards_trap = true ∧
    gvaSeqApplied.csr.hstatus.testBit CSR_HSTATUS_GVA =
      (ExposeToHypervisor.MmioLoadRequest loadRequest0).is_mmio_fault :=
  ⟨rfl, c5_gva_tracks_latest_forwarding state0 gvaSeqApplied
    [ExposeToHypervisor.EnabledInterrupts { vsie := 0 }]
    (ExposeToHypervisor.MmioLoadRequest loadRequest0) rfl rfl⟩

/-- C6: For every state whose trap cause classifies as a hypervisor-mode
call of the confidential-computing extension, restoring the original
registers and then classifying via trap_reason reports exactly the
extension and function identifiers held in the smuggled virtual-supervisor
CSR channel, regardless of the values registers a7 and a6 held at call
time. -/
theorem c6_ace_call_reports_smuggled_ids (s : MachineState) (f0 : Nat)
    (hclass : TrapCause.ofCause s.csr.mcause
        (s.hart.non_confidential_hart_state.gpr GeneralPurposeRegister.a7)
        (s.hart.non_confidential_hart_state.gpr GeneralPurposeRegister.a6) =
      TrapCause.HsEcall (SbiExtension.Ace f0))
    (hsm : s.csr.vstval = ACE_EXT_ID) :
    (trap_reason (restore_original_gprs s)).1 =
      TrapCause.HsEcall (SbiExtension.Ace s.csr.vsepc) ∧
    (trap_reason (restore_original_gprs s)).2.hart.non_confidential_hart_state.gpr
      GeneralPurposeRegister.a7 = s.csr.vstval ∧
    (trap_reason (restore_original_gprs s)).2.hart.non_confidential_hart_state.gpr
      GeneralPurposeRegister.a6 = s.csr.vsepc := by
  have hni : s.csr.mcause.testBit 63 = false := by
    by_contra hb
    rw [Bool.not_eq_false] at hb
    unfold TrapCause.ofCause at hclass
    rw [if_pos hb] at hclass
    exact absurd hclass (by simp)
  have hc9 : s.csr.mcause = CAUSE_SUPERVISOR_ECALL := by
    by_cases hb : s.csr.mcause = CAUSE_SUPERVISOR_ECALL
    · exact hb
    · exfalso
      unfold TrapCause.ofCause at hclass
      rw [if_neg (by simp [hni]), if_neg hb] at hclass
      by_cases h10 : s.csr.mcause = CAUSE_VIRTUAL_SUPERVISOR_ECALL
      · rw [if_pos h10] at hclass
        exact absurd hclass (by simp)
      · rw [if_neg h10] at hclass
        exact absurd hclass (by simp)
  have hclass2 : TrapCause.ofCause (restore_original_gprs s).csr.mcause
      ((restore_original_gprs s).hart.non_confidential_hart_state.gpr GeneralPurposeRegister.a7)
      ((restore_original_gprs s).hart.non_confidential_hart_state.gpr GeneralPurposeRegister.a6) =
      TrapCause.HsEcall (SbiExtension.Ace s.csr.vsepc) := by
    rw [restore_original_gprs_a7, restore_original_gprs_a6, restore_original_gprs_csr, hsm, hc9]
    unfold TrapCause.ofCause
    rw [if_neg (by decide), if_pos rfl]
    unfold SbiExtension.decode
    rw [if_pos rfl]
  rw [trap_reason_ace _ _ hclass2]
  exact ⟨rfl, restore_original_gprs_a7 _, restore_original_gprs_a6 _⟩

/-- Witness for C6 at a concrete confidential-computing call state. -/
theorem c6_ace_call_reports_smuggled_ids_witness :
    TrapCause.ofCause aceCallState.csr.mcause
      (aceCallState.hart.non_confidential_hart_state.gpr GeneralPurposeRegister.a7)
      (aceCallState.hart.non_confidential_hart_state.gpr GeneralPurposeRegister.a6) =
      TrapCause.HsEcall (SbiExtension.Ace 0) ∧
    (trap_reason (restore_original_gprs aceCallState)).1 =
      TrapCause.HsEcall (SbiExtension.Ace aceCallState.csr.vsepc) :=
  ⟨rfl, (c6_ace_call_reports_smuggled_ids aceCallState 0 rfl rfl).1⟩

/-- C7: resume_request and terminate_request reproduce exactly the
identifiers currently stored in the two smuggled CSRs; in particular, for a
state whose smuggled channel holds (7, 2) they report confidential VM 7 and
virtual hart 2. -/
theorem c7_requests_report_smuggled_csrs :
    resume_request state72 = { confidential_vm_id := 7, confidential_hart_id := 2 } ∧
    terminate_request state72 = { confidential_vm_id := 7 } ∧
    ∀ s : MachineState,
      resume_request s =
        { confidential_vm_id := s.csr.vstvec, confidential_hart_id := s.csr.vsscratch } ∧
      terminate_request s = { confidential_vm_id := s.csr.vstvec } :=
  ⟨rfl, rfl, fun _ => ⟨rfl, rfl⟩⟩

/-- C8 counterexample: there is no input address for which
SharePageRequest::new returns an error, refuting that some malformed
address is rejected with a typed failure. -/
theorem c8_counterexample_no_error :
    ¬ ∃ address : Nat, isErrB (SharePageRequest.new address) = true := by
  rintro ⟨a, h⟩
  simp [SharePageRequest.new, isErrB] at h

/-- C8 (amended): at the request-construction boundary the failure channel
is a typed Result and construction never aborts: SharePageRequest::new is
total and never panics; however, no input address is actually rejected, it
returns Ok for every address. -/
theorem c8_new_never_errors (address : Nat) :
    isErrB (SharePageRequest.new address) = false ∧
    isOkB (SharePageRequest.new address) = true := ⟨rfl, rfl⟩

/-- C9: swap_mscratch exchanges the machine scratch CSR with the saved
previous_mscratch field, and applying it twice restores the whole state
(the operation is an involution). -/
theorem c9_swap_mscratch_involution (s : MachineState) :
    (swap_mscratch s).csr.mscratch = s.hart.previous_mscratch ∧
    (swap_mscratch s).hart.previous_mscratch = s.csr.mscratch ∧
    swap_mscratch (swap_mscratch s) = s :=
  ⟨rfl, rfl, rfl⟩

/-- C10: SharePageRequest::new succeeds for every input address and the
constructed request always reports a page size of 4 KiB, independently of
the input. -/
theorem c10_new_always_ok_size4KiB (address : Nat) :
    (SharePageRequest.new address).map SharePageRequest.page_size_of =
      Except.ok PageSize.Size4KiB ∧
    SharePageRequest.new address =
      Except.ok { confidential_vm_virtual_address := ConfidentialVmPhysicalAddress.new address,
                  page_size := PageSize.Size4KiB } := ⟨rfl, rfl⟩

end ACE
